import Mathlib

/-!
Shallow embedding of the agent-orchestration core of the SystemChecker
repository (src/core/agent_factory.py, src/core/cache_manager.py,
src/core/memory_manager.py, src/config/settings.py, src/main.py).

Modelling conventions:
* Python dict results are modelled by the `AgentResult` structure; every
  result produced by the strategies carries an `output` key, so an absent
  optional key is a structure field with its Python-default value.
* Wall-clock instants and TTLs are integral seconds (`Int`).
* The language model, the specialist reasoning loops and the coordinator
  are opaque collaborators, modelled as oracle functions returning
  `Except String _`: `Except.error e` stands for a raised Python
  exception whose `str` is `e`.
* The cache's backing store (one JSON file per query hash, keyed by a
  deterministic hash of the exact query text) is modelled as an
  association list keyed by the query text itself; the hash is a
  deterministic injective key-derivation so this is faithful.
-/

/-- Result dictionary returned by every strategy (`AgentResult` of the spec).
Fields beyond `output` are optional keys of the Python dict; their default
values model the key being absent. -/
structure AgentResult where
  output : String
  error : Bool := false
  exception : Option String := none
  specialist_responses : List (String × String) := []
  coordination_used : Bool := false
deriving DecidableEq, Repr, Inhabited

/-! ### Cache layer (src/core/cache_manager.py) -/

/-- Timestamp field of a persisted cache entry: either a parsable ISO
instant (modelled as integral seconds) or an unparsable string
(`datetime.fromisoformat` raises `ValueError`). -/
inductive TsField where
  | iso (t : Int)
  | bad
deriving DecidableEq, Repr

/-- One backing file of the cache directory, as `CacheManager.get` can find
it: unreadable (`open` raises `OSError`), not JSON (`json.load` raises),
or a JSON object whose `timestamp` / `result` keys may be missing
(key access raises `KeyError`). `set` only ever writes the fully
well-formed shape. -/
inductive CacheFile where
  | unreadable
  | notJson
  | fields (timestamp : Option TsField) (query : Option String) (result : Option AgentResult)
deriving DecidableEq, Repr

/-- The cache directory: one entry per query key. -/
def Store := List (String × CacheFile)
deriving DecidableEq, Repr

/-- File-existence lookup (`os.path.exists` + `open`): first entry with the
given key. -/
def Store.find : Store → String → Option CacheFile
  | [], _ => none
  | (k, f) :: rest, q => if k = q then some f else Store.find rest q

/-- Physical removal of the backing file (`os.remove`). -/
def Store.erase (s : Store) (q : String) : Store :=
  s.filter (fun kv => kv.1 ≠ q)

/-- Overwriting file creation (`open(cache_file, "w")`). -/
def Store.write (s : Store) (q : String) (f : CacheFile) : Store :=
  (q, f) :: s.erase q

/-- Body of the `try` block of `CacheManager.get` (cache_manager.py lines
34-47): every failure mode of the read is a raised exception
(`Except.error`). The entry is assumed to exist (the `os.path.exists`
guard runs first). -/
def CacheManager.getBody (s : Store) (q : String) (now ttl : Int) :
    Except String (Option AgentResult × Store) :=
  match s.find q with
  | none => .error "FileNotFoundError"
  | some .unreadable => .error "OSError"
  | some .notJson => .error "JSONDecodeError"
  | some (.fields none _ _) => .error "KeyError: timestamp"
  | some (.fields (some .bad) _ _) => .error "ValueError"
  | some (.fields (some (.iso t)) _ r) =>
    if now - t > ttl then
      .ok (none, s.erase q)
    else
      match r with
      | some res => .ok (some res, s)
      | none => .error "KeyError: result"

/-- `CacheManager.get` (cache_manager.py lines 26-47): miss when the file
does not exist; otherwise the `try` body runs and any exception is
swallowed into a miss (`except Exception: return None`), leaving the
store untouched. -/
def CacheManager.get (s : Store) (q : String) (now ttl : Int) :
    Option AgentResult × Store :=
  match s.find q with
  | none => (none, s)
  | some _ =>
    match CacheManager.getBody s q now ttl with
    | .ok x => x
    | .error _ => (none, s)

/-- `CacheManager.set` (cache_manager.py lines 49-64): writes the
well-formed record `{timestamp, query, result}`. -/
def CacheManager.set (s : Store) (q : String) (res : AgentResult) (now : Int) : Store :=
  s.write q (.fields (some (.iso now)) (some q) (some res))

/-- A backing file on which the read part of `CacheManager.get` raises:
unreadable, malformed JSON, missing or unparsable `timestamp`, or missing
`result`. -/
def CacheFile.corrupt : CacheFile → Bool
  | .unreadable => true
  | .notJson => true
  | .fields none _ _ => true
  | .fields (some .bad) _ _ => true
  | .fields (some (.iso _)) _ none => true
  | .fields (some (.iso _)) _ (some _) => false

/-! ### Memory layer (src/core/memory_manager.py) -/

/-- One message of the in-session chat transcript. -/
inductive ChatMessage where
  | human (content : String)
  | ai (content : String)
deriving DecidableEq, Repr

/-- One persisted long-term interaction record (`MemoryInteraction` of the
spec). The `context` mapping is modelled as an association list. -/
structure Interaction where
  timestamp : String
  user_input : String
  ai_response : String
  context : List (String × String) := []
deriving DecidableEq, Repr

/-- State of a `MemoryManager`: the raw in-session transcript (the
session window is applied at read time, as langchain's
`ConversationBufferWindowMemory` does) and the persisted long-term
interaction log. -/
structure MemoryManager where
  sessionMessages : List ChatMessage := []
  interactions : List Interaction := []
deriving DecidableEq, Repr

/-- Window applied by langchain's `ConversationBufferWindowMemory(k=k)`
when the buffer is loaded: the last `k` exchanges, i.e. the last `2*k`
messages of the raw transcript. -/
def ConversationBufferWindowMemory.window (k : Nat) (msgs : List ChatMessage) :
    List ChatMessage :=
  msgs.drop (msgs.length - 2 * k)

/-- `MemoryManager.__init__` builds its session memory with `k=20`
(memory_manager.py line 18). -/
def MemoryManager.sessionWindowK : Nat := 20

/-- `ConversationalAgentPattern.__init__` builds the memory that is passed
to the agent executor (and hence injected into the prompt as prior turns)
with `k=10` — "Keep last 10 exchanges" (agent_factory.py lines 373-377). -/
def ConversationalAgentPattern.windowK : Nat := 10

/-- The prior-turn window the conversational strategy injects into its
prompt: its own `ConversationBufferWindowMemory(k=10)` buffer. -/
def ConversationalAgentPattern.promptWindow (msgs : List ChatMessage) : List ChatMessage :=
  ConversationBufferWindowMemory.window ConversationalAgentPattern.windowK msgs

/-- `MemoryManager.add_interaction` (memory_manager.py lines 39-64):
appends the exchange to the session transcript, appends the interaction
record to the long-term log, and keeps only the last 1000 log entries
(`interactions[-1000:]`). -/
def MemoryManager.addInteraction (m : MemoryManager) (userInput aiResponse ts : String)
    (ctx : List (String × String) := []) : MemoryManager :=
  let interaction : Interaction :=
    { timestamp := ts, user_input := userInput, ai_response := aiResponse, context := ctx }
  let appended := m.interactions ++ [interaction]
  { sessionMessages := m.sessionMessages ++ [.human userInput, .ai aiResponse],
    interactions := if appended.length > 1000 then appended.drop (appended.length - 1000) else appended }

/-- Python's `str.lower()`: character-wise lowercasing. -/
def pyLower (s : String) : String :=
  ⟨s.data.map Char.toLower⟩

/-- Splitting a character sequence at whitespace, keeping empty fields. -/
def splitWsAux : List Char → List Char → List String
  | [], acc => [⟨acc.reverse⟩]
  | c :: cs, acc =>
    if c.isWhitespace then ⟨acc.reverse⟩ :: splitWsAux cs [] else splitWsAux cs (c :: acc)

/-- Lowercased whitespace-split word list (`s.lower().split()`): Python's
argumentless `split` drops empty fields. -/
def pyLowerWords (s : String) : List String :=
  (splitWsAux (pyLower s).data []).filter (fun w => w ≠ "")

/-- Word set of a string (`set(s.lower().split())`). -/
def wordSet (s : String) : Finset String :=
  (pyLowerWords s).toFinset

/-- Relevance score of one stored interaction against a query
(memory_manager.py lines 76-80):
`len(query_words & (input_words | response_words))`. -/
def relevanceScore (q : String) (i : Interaction) : Nat :=
  (wordSet q ∩ (wordSet i.user_input ∪ wordSet i.ai_response)).card

/-- The interactions with strictly positive relevance, each paired with its
score, in chronological order (the `if relevance > 0: append` loop). -/
def scoredPositives (q : String) (l : List Interaction) : List (Interaction × Nat) :=
  (l.map (fun i => (i, relevanceScore q i))).filter (fun p => 0 < p.2)

/-- Stable descending insertion by score: the element is placed before the
first already-present element whose score is not larger. -/
def insertByScore (x : Interaction × Nat) : List (Interaction × Nat) → List (Interaction × Nat)
  | [] => [x]
  | y :: ys => if y.2 ≤ x.2 then x :: y :: ys else y :: insertByScore x ys

/-- Stable sort by descending `relevance_score`. Python's
`list.sort(key=..., reverse=True)` is a stable sort; any two stable sorts
by the same key compute the same function, so this insertion sort is the
extensional embedding of line 89 of memory_manager.py. -/
def sortByScoreDesc : List (Interaction × Nat) → List (Interaction × Nat)
  | [] => []
  | x :: xs => insertByScore x (sortByScoreDesc xs)

/-- `MemoryManager.get_relevant_context` (memory_manager.py lines 66-90):
score, keep positives, stable-sort descending, truncate to `max_items`. -/
def MemoryManager.getRelevantContext (q : String) (maxItems : Nat) (l : List Interaction) :
    List (Interaction × Nat) :=
  (sortByScoreDesc (scoredPositives q l)).take maxItems

/-! ### Multi-agent strategy (src/core/agent_factory.py, MultiAgentPattern) -/

/-- Performance-domain keywords (agent_factory.py line 348). -/
def performanceKeywords : List String :=
  ["cpu", "memory", "disk", "performance", "slow", "usage", "resource"]

/-- Security-domain keywords (agent_factory.py line 353). -/
def securityKeywords : List String :=
  ["security", "vulnerability", "firewall", "malware", "attack", "breach"]

/-- Troubleshooting-domain keywords (agent_factory.py line 358). -/
def troubleshootingKeywords : List String :=
  ["error", "problem", "issue", "fix", "troubleshoot", "debug", "crash"]

/-- Python's substring test `needle in haystack`: the needle's character
sequence occurs contiguously in the haystack's. -/
def pyIn (needle haystack : String) : Bool :=
  decide (needle.data <:+: haystack.data)

/-- Whether any keyword of the list occurs in the lowercased query. -/
def anyKeywordIn (kws : List String) (queryLower : String) : Bool :=
  kws.any (fun k => pyIn k queryLower)

/-- `MultiAgentPattern._determine_relevant_specialists` (agent_factory.py
lines 341-365): append each matching domain in the fixed order, and fall
back to all three when none matches. -/
def MultiAgentPattern.determineRelevantSpecialists (query : String) : List String :=
  let queryLower := pyLower query
  let specialists :=
    (if anyKeywordIn performanceKeywords queryLower then ["performance"] else []) ++
    (if anyKeywordIn securityKeywords queryLower then ["security"] else []) ++
    (if anyKeywordIn troubleshootingKeywords queryLower then ["troubleshooting"] else [])
  if specialists.isEmpty then ["performance", "security", "troubleshooting"] else specialists

/-- Names of the specialist agents created at construction
(`_create_specialist_agents`). -/
def specialistNames : List String := ["performance", "security", "troubleshooting"]

/-- Opaque reasoning-loop collaborators of the multi-agent strategy: each
specialist's `AgentExecutor.invoke` (returning its `output` string) and
the coordinator's invoke, either of which may raise. -/
structure MAOracle where
  specialist : String → String → Except String String
  coordinator : String → String → Except String String

/-- Python's `str.title()` restricted to the single lowercase words it is
applied to here: first character uppercased, rest lowercased. -/
def pyTitle (s : String) : String :=
  match s.data with
  | [] => ""
  | c :: cs => ⟨c.toUpper :: cs.map Char.toLower⟩

/-- The `specialist_responses` synthesis input string
(agent_factory.py lines 321-324). -/
def coordinationResponses (responses : List (String × String)) : String :=
  String.intercalate "\n\n"
    (responses.map (fun p => pyTitle p.1 ++ " Specialist Response:\n" ++ p.2))

/-- Body of the `try` block of `MultiAgentPattern.execute_query`
(agent_factory.py lines 307-333): sequential fan-out over the selected
specialists — the first raised exception aborts the whole block — then
the coordinator pass. -/
def MultiAgentPattern.executeBody (o : MAOracle) (query : String) :
    Except String AgentResult := do
  let relevant := MultiAgentPattern.determineRelevantSpecialists query
  let responses ← relevant.foldlM
    (fun acc name => do
      if name ∈ specialistNames then
        let out ← o.specialist name query
        pure (acc ++ [(name, out)])
      else
        pure acc)
    ([] : List (String × String))
  let finalResponse ← o.coordinator query (coordinationResponses responses)
  pure { output := finalResponse,
         specialist_responses := responses,
         coordination_used := true }

/-- `MultiAgentPattern.execute_query` (agent_factory.py lines 305-339): the
catch-all `except` turns any exception from the body into an error
result. Note: no cache interaction at all in this override. -/
def MultiAgentPattern.executeQuery (o : MAOracle) (query : String) : AgentResult :=
  match MultiAgentPattern.executeBody o query with
  | .ok r => r
  | .error e => { output := "Error in multi-agent execution: " ++ e, error := true }

/-! ### Base strategy execute_query (src/core/agent_factory.py lines 46-69) -/

/-- `BaseAgentPattern.execute_query`: consult the cache when enabled
(`store = some s`), return a truthy cached result as-is; otherwise invoke
the reasoning loop (the opaque `invoke` collaborator), write a successful
result through to the cache, and turn any raised exception into an
`"Error executing query: <cause>"` result. The store is threaded because
`CacheManager.get` may remove an expired file. -/
def BaseAgentPattern.executeQuery (store : Option Store) (now ttl : Int)
    (invoke : Except String AgentResult) (query : String) :
    AgentResult × Option Store :=
  let afterGet : Option AgentResult × Option Store :=
    match store with
    | none => (none, none)
    | some s =>
      let gr := CacheManager.get s query now ttl
      (gr.1, some gr.2)
  match afterGet.1 with
  | some cached => (cached, afterGet.2)
  | none =>
    match invoke with
    | .ok result =>
      let store' := afterGet.2.map (fun s => CacheManager.set s query result now)
      (result, store')
    | .error e =>
      ({ output := "Error executing query: " ++ e, error := true, exception := some e },
       afterGet.2)

/-! ### Factory and dispatch (src/config/settings.py, src/core/agent_factory.py,
src/main.py) -/

/-- The `AgentPattern` enum of config/settings.py (seven members). -/
inductive AgentPattern where
  | react
  | planExecute
  | multiAgent
  | conversational
  | structuredChat
  | selfAsk
  | openaiFunctions
deriving DecidableEq, Repr

/-- Python's `str(pattern)` for an enum member, as interpolated into the
`ValueError` message. -/
def AgentPattern.str : AgentPattern → String
  | .react => "AgentPattern.REACT"
  | .planExecute => "AgentPattern.PLAN_EXECUTE"
  | .multiAgent => "AgentPattern.MULTI_AGENT"
  | .conversational => "AgentPattern.CONVERSATIONAL"
  | .structuredChat => "AgentPattern.STRUCTURED_CHAT"
  | .selfAsk => "AgentPattern.SELF_ASK"
  | .openaiFunctions => "AgentPattern.OPENAI_FUNCTIONS"

/-- The five registered strategy classes (agent_factory.py lines 487-493). -/
inductive StrategyKind where
  | react
  | planExecute
  | multiAgent
  | conversational
  | selfAsk
deriving DecidableEq, Repr

/-- The `_pattern_classes` lookup table: note that `STRUCTURED_CHAT` and
`OPENAI_FUNCTIONS` have no registered class. -/
def AgentFactory.patternClasses : List (AgentPattern × StrategyKind) :=
  [(.react, .react), (.planExecute, .planExecute), (.multiAgent, .multiAgent),
   (.conversational, .conversational), (.selfAsk, .selfAsk)]

/-- Python `dict.get` on the lookup table. -/
def dictGet : List (AgentPattern × StrategyKind) → AgentPattern → Option StrategyKind
  | [], _ => none
  | (k, v) :: rest, p => if k = p then some v else dictGet rest p

/-- `AgentFactory.create_agent_pattern` (agent_factory.py lines 495-511):
unknown pattern ids raise `ValueError(f"Unsupported agent pattern:
{pattern}")`; otherwise the class is instantiated. -/
def AgentFactory.createAgentPattern (p : AgentPattern) : Except String StrategyKind :=
  match dictGet AgentFactory.patternClasses p with
  | some c => .ok c
  | none => .error ("Unsupported agent pattern: " ++ p.str)

/-- `AdvancedAISystemAdmin.initialize_agent` (main.py lines 71-86): a
construction failure is caught, reported, and the system falls back to
the ReAct pattern (a fresh construction, not a retry of the requested
pattern). Returns the pattern actually in use and its instance. -/
def AdvancedAISystemAdmin.initializeAgent (p : AgentPattern) : AgentPattern × StrategyKind :=
  match AgentFactory.createAgentPattern p with
  | .ok s => (p, s)
  | .error _ => (.react, .react)

/-- Per-strategy dispatch of `execute_query` over the five registered
strategies: `MultiAgentPattern` overrides `execute_query` and never
touches the cache; every other class inherits
`BaseAgentPattern.execute_query`. -/
def StrategyKind.executeQuery (k : StrategyKind) (store : Option Store) (now ttl : Int)
    (invoke : Except String AgentResult) (mao : MAOracle) (query : String) :
    AgentResult × Option Store :=
  match k with
  | .multiAgent => (MultiAgentPattern.executeQuery mao query, store)
  | _ => BaseAgentPattern.executeQuery store now ttl invoke query

/-! ### Theorems -/

/-- C4: a cache `get` for an entry whose age exceeds the TTL returns the
miss value (`none`) and physically removes the stale entry from the
backing store before returning. -/
theorem cache_expired_entry_get_misses_and_removes
    (s : Store) (q : String) (now ttl t : Int) (qf : Option String) (r : AgentResult)
    (hfind : Store.find s q = some (.fields (some (.iso t)) qf (some r)))
    (hexp : now - t > ttl) :
    CacheManager.get s q now ttl = (none, Store.erase s q) := by
  simp [CacheManager.get, CacheManager.getBody, hfind, hexp]

/-- Concrete expired store used by the C4 witness. -/
def expiredStore : Store :=
  [("q", CacheFile.fields (some (.iso 0)) (some "q") (some { output := "r" }))]

/-- Witness for C4 at a concrete expired store. -/
theorem cache_expired_entry_get_misses_and_removes_witness :
    Store.find expiredStore "q"
      = some (.fields (some (.iso 0)) (some "q") (some { output := "r" })) ∧
    (400 : Int) - 0 > 300 ∧
    CacheManager.get expiredStore "q" 400 300 = (none, Store.erase expiredStore "q") :=
  ⟨by decide, by decide,
   cache_expired_entry_get_misses_and_removes expiredStore "q" 400 300 0 (some "q")
     { output := "r" } (by decide) (by decide)⟩

/-- C10: every failure of the backing-entry read inside `CacheManager.get`
(unreadable file, malformed JSON, missing or unparsable `timestamp`,
missing `result`) is swallowed: the raised exception never reaches the
caller — the catch-all turns it into a miss with the store untouched —
and a corrupt entry always reads as a miss. -/
theorem cache_read_failure_swallowed_as_miss :
    (∀ (s : Store) (q : String) (now ttl : Int) (e : String),
        CacheManager.getBody s q now ttl = .error e →
        CacheManager.get s q now ttl = (none, s)) ∧
    (∀ (s : Store) (q : String) (now ttl : Int) (f : CacheFile),
        Store.find s q = some f → f.corrupt = true →
        (CacheManager.get s q now ttl).1 = none) := by
  constructor
  · intro s q now ttl e hbody
    unfold CacheManager.get
    cases hf : Store.find s q with
    | none => rfl
    | some f => rw [hbody]
  · intro s q now ttl f hfind hc
    cases f with
    | unreadable => simp [CacheManager.get, CacheManager.getBody, hfind]
    | notJson => simp [CacheManager.get, CacheManager.getBody, hfind]
    | fields ts qf r =>
      cases ts with
      | none => simp [CacheManager.get, CacheManager.getBody, hfind]
      | some tf =>
        cases tf with
        | bad => simp [CacheManager.get, CacheManager.getBody, hfind]
        | iso t =>
          cases r with
          | some res => simp [CacheFile.corrupt] at hc
          | none =>
            by_cases hE : now - t > ttl
            · simp [CacheManager.get, CacheManager.getBody, hfind, hE]
            · simp [CacheManager.get, CacheManager.getBody, hfind, hE]

/-- Concrete malformed store used by the C10 witness. -/
def corruptStore : Store := [("q", CacheFile.notJson)]

/-- Witness for C10 at a concrete malformed entry. -/
theorem cache_read_failure_swallowed_as_miss_witness :
    CacheManager.getBody corruptStore "q" 0 300 = .error "JSONDecodeError" ∧
    CacheManager.get corruptStore "q" 0 300 = (none, corruptStore) ∧
    Store.find corruptStore "q" = some .notJson ∧
    CacheFile.notJson.corrupt = true ∧
    (CacheManager.get corruptStore "q" 0 300).1 = none :=
  ⟨rfl,
   cache_read_failure_swallowed_as_miss.1 corruptStore "q" 0 300 "JSONDecodeError" rfl,
   by decide, by decide,
   cache_read_failure_swallowed_as_miss.2 corruptStore "q" 0 300 .notJson (by decide) (by decide)⟩

/-- C9: a pattern identifier with no registered strategy class makes
`AgentFactory.create_agent_pattern` fail with the `ValueError`
configuration error and its clear message; no strategy instance of that
pattern is produced; the CLI's `initialize_agent` does not retry it but
falls back to the ReAct pattern. -/
theorem factory_unknown_pattern_fails
    (p : AgentPattern) (h : dictGet AgentFactory.patternClasses p = none) :
    AgentFactory.createAgentPattern p = .error ("Unsupported agent pattern: " ++ p.str) ∧
    (∀ k, AgentFactory.createAgentPattern p ≠ .ok k) ∧
    AdvancedAISystemAdmin.initializeAgent p = (.react, .react) := by
  have hc : AgentFactory.createAgentPattern p
      = .error ("Unsupported agent pattern: " ++ p.str) := by
    simp [AgentFactory.createAgentPattern, h]
  refine ⟨hc, ?_, ?_⟩
  · intro k hk
    rw [hc] at hk
    exact Except.noConfusion hk
  · simp [AdvancedAISystemAdmin.initializeAgent, hc]

/-- Witness for C9 at the unregistered `STRUCTURED_CHAT` pattern. -/
theorem factory_unknown_pattern_fails_witness :
    dictGet AgentFactory.patternClasses .structuredChat = none ∧
    AgentFactory.createAgentPattern .structuredChat
      = .error "Unsupported agent pattern: AgentPattern.STRUCTURED_CHAT" ∧
    AdvancedAISystemAdmin.initializeAgent .structuredChat = (.react, .react) :=
  ⟨by decide, (factory_unknown_pattern_fails .structuredChat (by decide)).1,
   (factory_unknown_pattern_fails .structuredChat (by decide)).2.2⟩

/-- The fallback branch of specialist selection can never produce an empty
selection. -/
theorem selection_ite_ne_nil (L : List String) :
    (if L.isEmpty = true then ["performance", "security", "troubleshooting"] else L) ≠ [] := by
  by_cases h : L.isEmpty = true
  · simp [h]
  · simp only [if_neg h]
    intro hn
    rw [hn] at h
    simp at h

/-- C8: specialist selection classifies the query by case-insensitive
substring match against the three fixed keyword lists; a query may match
one domain ("why is my CPU at 100%" selects exactly performance), several
("cpu attack" selects performance and security), or none, in which case
all three specialists are selected ("hello"), so the selection is never
empty. -/
theorem specialist_selection_behavior :
    MultiAgentPattern.determineRelevantSpecialists "why is my CPU at 100%" = ["performance"] ∧
    MultiAgentPattern.determineRelevantSpecialists "hello"
      = ["performance", "security", "troubleshooting"] ∧
    MultiAgentPattern.determineRelevantSpecialists "cpu attack"
      = ["performance", "security"] ∧
    (∀ q, MultiAgentPattern.determineRelevantSpecialists q ≠ []) ∧
    (∀ q, anyKeywordIn performanceKeywords (pyLower q) = false →
          anyKeywordIn securityKeywords (pyLower q) = false →
          anyKeywordIn troubleshootingKeywords (pyLower q) = false →
          MultiAgentPattern.determineRelevantSpecialists q
            = ["performance", "security", "troubleshooting"]) := by
  refine ⟨by decide, by decide, by decide, ?_, ?_⟩
  · intro q
    unfold MultiAgentPattern.determineRelevantSpecialists
    dsimp only
    exact selection_ite_ne_nil _
  · intro q h1 h2 h3
    simp [MultiAgentPattern.determineRelevantSpecialists, h1, h2, h3]

/-- Witness for C8: the neutral query "hello" matches none of the three
keyword lists and therefore selects all three specialists. -/
theorem specialist_selection_behavior_witness :
    anyKeywordIn performanceKeywords (pyLower "hello") = false ∧
    anyKeywordIn securityKeywords (pyLower "hello") = false ∧
    anyKeywordIn troubleshootingKeywords (pyLower "hello") = false ∧
    MultiAgentPattern.determineRelevantSpecialists "hello"
      = ["performance", "security", "troubleshooting"] :=
  ⟨by decide, by decide, by decide,
   specialist_selection_behavior.2.2.2.2 "hello" (by decide) (by decide) (by decide)⟩

/-- Concrete session transcript of 21 exchanges (42 messages) for the C7
counterexample. -/
def msgs42 : List ChatMessage := List.replicate 42 (ChatMessage.human "m")

/-- C7 counterexample: with 21 exchanges in the session, the window the
conversational strategy injects into its prompt keeps only the last 20
messages (10 exchanges, per `k=10`), not the last 40 messages that the
claimed 20-exchange window would keep. -/
theorem conversational_window_counterexample :
    (ConversationalAgentPattern.promptWindow msgs42).length = 20 ∧
    (ConversationBufferWindowMemory.window 20 msgs42).length = 40 ∧
    ConversationalAgentPattern.promptWindow msgs42 ≠
      ConversationBufferWindowMemory.window 20 msgs42 := by
  decide

/-- C7 amended: the conversational strategy's prompt window retains at most
the most recent 10 exchanges (20 messages) — a suffix of the transcript of
length `min length 20`; the `MemoryManager`'s separate session window
(`k=20`) retains up to 40 messages but is not the window injected into
the conversational prompt. -/
theorem conversational_window_is_ten_exchanges (msgs : List ChatMessage) :
    (ConversationalAgentPattern.promptWindow msgs).length = min msgs.length 20 ∧
    (∃ pre, pre ++ ConversationalAgentPattern.promptWindow msgs = msgs) ∧
    (ConversationBufferWindowMemory.window MemoryManager.sessionWindowK msgs).length
      = min msgs.length 40 := by
  refine ⟨?_, ⟨msgs.take (msgs.length - 20), ?_⟩, ?_⟩
  · simp only [ConversationalAgentPattern.promptWindow,
      ConversationBufferWindowMemory.window, ConversationalAgentPattern.windowK,
      List.length_drop]
    omega
  · exact List.take_append_drop _ _
  · simp only [ConversationBufferWindowMemory.window, MemoryManager.sessionWindowK,
      List.length_drop]
    omega

/-- One `add_interaction` call with the payload packaged as the record it
appends (the timestamp is the one `datetime.now()` produced). -/
def MemoryManager.stepAdd (m : MemoryManager) (i : Interaction) : MemoryManager :=
  m.addInteraction i.user_input i.ai_response i.timestamp i.context

/-- The long-term-log component of one `add_interaction` call
(memory_manager.py lines 55-62). -/
def longTermStep (l : List Interaction) (i : Interaction) : List Interaction :=
  let appended := l ++ [i]
  if appended.length > 1000 then appended.drop (appended.length - 1000) else appended

/-- Projecting one `add_interaction` call to the long-term log. -/
theorem stepAdd_interactions (m : MemoryManager) (i : Interaction) :
    (MemoryManager.stepAdd m i).interactions = longTermStep m.interactions i := rfl

/-- Projecting a whole sequence of `add_interaction` calls to the long-term
log. -/
theorem foldl_stepAdd_interactions (m : MemoryManager) (xs : List Interaction) :
    (xs.foldl MemoryManager.stepAdd m).interactions
      = xs.foldl longTermStep m.interactions := by
  induction xs generalizing m with
  | nil => rfl
  | cons x xs ih => rw [List.foldl_cons, List.foldl_cons, ih, stepAdd_interactions]

/-- Appending interactions one by one from an empty log keeps exactly the
most recent 1000, in order. -/
theorem foldl_longTermStep_drop (xs : List Interaction) :
    xs.foldl longTermStep [] = xs.drop (xs.length - 1000) := by
  induction xs using List.reverseRecOn with
  | nil => rfl
  | append_singleton xs x ih =>
    rw [List.foldl_append, List.foldl_cons, List.foldl_nil, ih]
    by_cases hx : xs.length < 1000
    · have h0 : xs.length - 1000 = 0 := by omega
      rw [h0, List.drop_zero]
      unfold longTermStep
      dsimp only
      have hlen : (xs ++ [x]).length = xs.length + 1 := by simp
      have hle : ¬ (xs ++ [x]).length > 1000 := by omega
      rw [if_neg hle]
      have h1 : (xs ++ [x]).length - 1000 = 0 := by omega
      rw [h1, List.drop_zero]
    · have hxs : 1000 ≤ xs.length := by omega
      have hdlen : (xs.drop (xs.length - 1000)).length = 1000 := by
        rw [List.length_drop]; omega
      unfold longTermStep
      dsimp only
      have hlen : (xs.drop (xs.length - 1000) ++ [x]).length = 1001 := by
        simp [hdlen]
      rw [hlen]
      have hgt : (1001 : Nat) > 1000 := by omega
      rw [if_pos hgt]
      have hone : (1001 : Nat) - 1000 = 1 := by omega
      rw [hone]
      have hsplit : (xs.drop (xs.length - 1000) ++ [x]).drop 1
          = (xs.drop (xs.length - 1000)).drop 1 ++ [x] := by
        apply List.drop_append_of_le_length
        omega
      rw [hsplit, List.drop_drop]
      have harith : xs.length - 1000 + 1 = (xs ++ [x]).length - 1000 := by
        simp; omega
      rw [harith]
      have hle2 : (xs ++ [x]).length - 1000 ≤ xs.length := by simp
      rw [← List.drop_append_of_le_length hle2]

/-- C5: starting from an empty persisted log, any sequence of
`add_interaction` calls leaves the log holding exactly the most recent
1000 interactions in their original append order — in particular the log
never exceeds 1000 entries, and appending 1001 interactions leaves
exactly the last 1000 (the oldest one evicted). -/
theorem memory_cap_holds :
    (∀ (m : MemoryManager) (xs : List Interaction), m.interactions = [] →
        (xs.foldl MemoryManager.stepAdd m).interactions = xs.drop (xs.length - 1000) ∧
        (xs.foldl MemoryManager.stepAdd m).interactions.length ≤ 1000) ∧
    (∀ (m : MemoryManager) (xs : List Interaction), m.interactions = [] →
        xs.length = 1001 →
        (xs.foldl MemoryManager.stepAdd m).interactions = xs.drop 1) := by
  have main : ∀ (m : MemoryManager) (xs : List Interaction), m.interactions = [] →
      (xs.foldl MemoryManager.stepAdd m).interactions = xs.drop (xs.length - 1000) := by
    intro m xs hm
    rw [foldl_stepAdd_interactions, hm, foldl_longTermStep_drop]
  constructor
  · intro m xs hm
    refine ⟨main m xs hm, ?_⟩
    rw [main m xs hm, List.length_drop]
    omega
  · intro m xs hm hlen
    rw [main m xs hm, hlen]

/-- Concrete 1001-interaction sequence for the C5 witness. -/
def manyInteractions : List Interaction :=
  List.replicate 1001 { timestamp := "t", user_input := "u", ai_response := "a" }

/-- Witness for C5: 1001 appends from the empty log keep exactly the last
1000. -/
theorem memory_cap_holds_witness :
    ({} : MemoryManager).interactions = [] ∧
    manyInteractions.length = 1001 ∧
    (manyInteractions.foldl MemoryManager.stepAdd {}).interactions
      = manyInteractions.drop 1 :=
  ⟨rfl, List.length_replicate 1001 _,
   memory_cap_holds.2 {} manyInteractions rfl (List.length_replicate 1001 _)⟩

/-- Oracle in which the performance specialist raises and everything else
succeeds; used by the multi-agent counterexamples and witnesses. -/
def failingPerformanceOracle : MAOracle where
  specialist := fun name _ => if name = "performance" then .error "boom" else .ok ("ok-" ++ name)
  coordinator := fun _ _ => .ok "synth"

/-- C1 counterexample: for the neutral query "hello" (all three
specialists selected) with only the performance specialist raising, the
overall result is an error `AgentResult` and carries no other
specialist's output — the failure is not isolated. -/
theorem multi_agent_no_isolation_counterexample :
    (MultiAgentPattern.executeQuery failingPerformanceOracle "hello").error = true ∧
    (MultiAgentPattern.executeQuery failingPerformanceOracle "hello").output
      = "Error in multi-agent execution: boom" ∧
    (MultiAgentPattern.executeQuery failingPerformanceOracle "hello").specialist_responses
      = [] := by
  decide

/-- A fan-out over specialists that all succeed runs to completion: the
sequential specialist loop of `execute_query` raises nowhere in it. -/
theorem foldl_specialists_ok (o : MAOracle) (q : String) (pre : List String)
    (hpre : ∀ n ∈ pre, ∃ out, o.specialist n q = Except.ok out) :
    ∀ acc : List (String × String), ∃ acc',
      List.foldlM
        (fun acc name => do
          if name ∈ specialistNames then
            let out ← o.specialist name q
            pure (acc ++ [(name, out)])
          else
            pure acc)
        acc pre = Except.ok acc' := by
  induction pre with
  | nil => exact fun acc => ⟨acc, rfl⟩
  | cons n ns ih =>
    intro acc
    obtain ⟨out, hout⟩ := hpre n (List.mem_cons_self n ns)
    have hns : ∀ m ∈ ns, ∃ o', o.specialist m q = Except.ok o' :=
      fun m hm => hpre m (List.mem_cons_of_mem n hm)
    by_cases hn : n ∈ specialistNames
    · obtain ⟨acc', hacc'⟩ := ih hns (acc ++ [(n, out)])
      refine ⟨acc', ?_⟩
      rw [List.foldlM_cons, if_pos hn, hout]
      exact hacc'
    · obtain ⟨acc', hacc'⟩ := ih hns acc
      refine ⟨acc', ?_⟩
      rw [List.foldlM_cons, if_neg hn]
      exact hacc'

/-- C1 amended: one `try` block wraps the whole fan-out, so the first
raising specialist — at any position in the selection — aborts the query:
the specialists after it never run (the result does not depend on the
rest of the oracle), the successful contributions of the specialists
before it are discarded, nothing reaches the coordinator, and the overall
result is the error `AgentResult` with output
`"Error in multi-agent execution: <cause>"`. -/
theorem multi_agent_specialist_failure_aborts
    (o : MAOracle) (q e name : String) (pre rest : List String)
    (hsel : MultiAgentPattern.determineRelevantSpecialists q = pre ++ name :: rest)
    (hpre : ∀ n ∈ pre, ∃ out, o.specialist n q = Except.ok out)
    (hname : name ∈ specialistNames)
    (hfail : o.specialist name q = .error e) :
    MultiAgentPattern.executeQuery o q
      = { output := "Error in multi-agent execution: " ++ e, error := true } := by
  unfold MultiAgentPattern.executeQuery MultiAgentPattern.executeBody
  rw [hsel]
  dsimp only
  obtain ⟨acc', hacc'⟩ := foldl_specialists_ok o q pre hpre []
  rw [List.foldlM_append, hacc']
  simp only [List.foldlM_cons, hname, if_pos, hfail]
  rfl

/-- Oracle in which the security specialist raises while the others
succeed; exercises a failure in the middle of the fan-out. -/
def failingSecurityOracle : MAOracle where
  specialist := fun name _ =>
    if name = "security" then .error "sec-down" else .ok ("ok-" ++ name)
  coordinator := fun _ _ => .ok "synth"

/-- Witness for C1: on "hello" all three specialists are selected; the
performance specialist succeeds, then the security specialist raises, and
the whole query aborts with the error result — the performance output is
discarded. -/
theorem multi_agent_specialist_failure_aborts_witness :
    MultiAgentPattern.determineRelevantSpecialists "hello"
      = ["performance"] ++ "security" :: ["troubleshooting"] ∧
    failingSecurityOracle.specialist "performance" "hello" = .ok "ok-performance" ∧
    "security" ∈ specialistNames ∧
    failingSecurityOracle.specialist "security" "hello" = .error "sec-down" ∧
    MultiAgentPattern.executeQuery failingSecurityOracle "hello"
      = { output := "Error in multi-agent execution: sec-down", error := true } :=
  ⟨by decide, rfl, by decide, rfl,
   multi_agent_specialist_failure_aborts failingSecurityOracle "hello" "sec-down" "security"
     ["performance"] ["troubleshooting"] (by decide)
     (fun n hn => by
       rw [List.mem_singleton] at hn
       subst hn
       exact ⟨"ok-performance", rfl⟩)
     (by decide) rfl⟩

/-- C3 counterexample: a failing multi-agent query yields `error = true`
but its output is the `"Error in multi-agent execution: <cause>"` string,
not the claimed `"Error executing query: <cause>"`. -/
theorem multi_agent_error_prefix_counterexample :
    (MultiAgentPattern.executeQuery failingPerformanceOracle "hello").error = true ∧
    (MultiAgentPattern.executeQuery failingPerformanceOracle "hello").output
      ≠ "Error executing query: " ++ "boom" := by
  decide

/-- C3 amended: `execute_query` is a total function into `AgentResult` (no
exception crosses the strategy boundary, by the catch-all handlers); base
strategies surface a failure as `error=true` with output
`"Error executing query: <cause>"`, while the multi-specialist strategy
surfaces its failures as `"Error in multi-agent execution: <cause>"`. -/
theorem strategy_error_result_forms :
    (∀ (now ttl : Int) (q e : String),
        BaseAgentPattern.executeQuery none now ttl (.error e) q
          = ({ output := "Error executing query: " ++ e, error := true,
               exception := some e }, none)) ∧
    (∀ (s : Store) (now ttl : Int) (q e : String) (s' : Store),
        CacheManager.get s q now ttl = (none, s') →
        BaseAgentPattern.executeQuery (some s) now ttl (.error e) q
          = ({ output := "Error executing query: " ++ e, error := true,
               exception := some e }, some s')) ∧
    (∀ (o : MAOracle) (q e : String),
        MultiAgentPattern.executeBody o q = .error e →
        MultiAgentPattern.executeQuery o q
          = { output := "Error in multi-agent execution: " ++ e, error := true }) := by
  refine ⟨fun now ttl q e => rfl, ?_, ?_⟩
  · intro s now ttl q e s' hget
    simp [BaseAgentPattern.executeQuery, hget]
  · intro o q e hbody
    simp [MultiAgentPattern.executeQuery, hbody]

/-- Witness for C3 amended at a concrete miss store and failing body. -/
theorem strategy_error_result_forms_witness :
    CacheManager.get [] "q" 0 300 = (none, []) ∧
    BaseAgentPattern.executeQuery (some []) 0 300 (.error "down") "q"
      = ({ output := "Error executing query: " ++ "down", error := true,
           exception := some "down" }, some []) ∧
    MultiAgentPattern.executeBody failingPerformanceOracle "hello" = .error "boom" ∧
    MultiAgentPattern.executeQuery failingPerformanceOracle "hello"
      = { output := "Error in multi-agent execution: boom", error := true } :=
  ⟨rfl,
   strategy_error_result_forms.2.1 [] 0 300 "q" "down" [] rfl,
   rfl,
   strategy_error_result_forms.2.2 failingPerformanceOracle "hello" "boom" rfl⟩

/-- A cached result distinct from anything the oracles below produce. -/
def cachedResult : AgentResult := { output := "cached" }

/-- A store holding a fresh (timestamp 0, read at `now = 0`) cache entry
for the query "hello". -/
def freshStore : Store :=
  [("hello", CacheFile.fields (some (.iso 0)) (some "hello") (some cachedResult))]

/-- Oracle in which every specialist and the coordinator succeed. -/
def allOkOracle : MAOracle where
  specialist := fun name _ => .ok ("ok-" ++ name)
  coordinator := fun _ _ => .ok "synth"

/-- C2 counterexample: with caching enabled and a fresh cache entry for
"hello", the multi-specialist strategy still executes and returns the
coordinator's synthesis, not the cached result, and writes nothing back:
it bypasses the cache entirely. -/
theorem multi_agent_cache_bypass_counterexample :
    CacheManager.get freshStore "hello" 0 300 = (some cachedResult, freshStore) ∧
    (StrategyKind.executeQuery .multiAgent (some freshStore) 0 300 (.ok cachedResult)
        allOkOracle "hello").1 ≠ cachedResult ∧
    (StrategyKind.executeQuery .multiAgent (some freshStore) 0 300 (.ok cachedResult)
        allOkOracle "hello").2 = some freshStore := by
  decide

/-- C2 amended: the caching contract — hit returns the cached result
unmodified without consulting the model, miss plus success writes through
before returning — holds for the four strategies inheriting
`BaseAgentPattern.execute_query`; the multi-specialist strategy's
override neither reads nor writes the cache. -/
theorem caching_contract_by_strategy :
    (∀ (s : Store) (now ttl : Int) (q : String) (r : AgentResult) (s' : Store)
        (invoke invoke' : Except String AgentResult),
        CacheManager.get s q now ttl = (some r, s') →
        BaseAgentPattern.executeQuery (some s) now ttl invoke q = (r, some s') ∧
        BaseAgentPattern.executeQuery (some s) now ttl invoke q
          = BaseAgentPattern.executeQuery (some s) now ttl invoke' q) ∧
    (∀ (s : Store) (now ttl : Int) (q : String) (res : AgentResult) (s' : Store),
        CacheManager.get s q now ttl = (none, s') →
        BaseAgentPattern.executeQuery (some s) now ttl (.ok res) q
          = (res, some (CacheManager.set s' q res now))) ∧
    (∀ (k : StrategyKind), k ≠ .multiAgent →
        ∀ (store : Option Store) (now ttl : Int) (invoke : Except String AgentResult)
          (mao : MAOracle) (q : String),
          StrategyKind.executeQuery k store now ttl invoke mao q
            = BaseAgentPattern.executeQuery store now ttl invoke q) ∧
    (∀ (store store' : Option Store) (now ttl : Int)
        (invoke : Except String AgentResult) (mao : MAOracle) (q : String),
        (StrategyKind.executeQuery .multiAgent store now ttl invoke mao q).2 = store ∧
        (StrategyKind.executeQuery .multiAgent store now ttl invoke mao q).1
          = (StrategyKind.executeQuery .multiAgent store' now ttl invoke mao q).1) := by
  refine ⟨?_, ?_, ?_, ?_⟩
  · intro s now ttl q r s' invoke invoke' hget
    constructor <;> simp [BaseAgentPattern.executeQuery, hget]
  · intro s now ttl q res s' hget
    simp [BaseAgentPattern.executeQuery, hget]
  · intro k hk store now ttl invoke mao q
    cases k with
    | multiAgent => exact absurd rfl hk
    | react => rfl
    | planExecute => rfl
    | conversational => rfl
    | selfAsk => rfl
  · intro store store' now ttl invoke mao q
    exact ⟨rfl, rfl⟩

/-- Witness for C2 amended: a concrete hit on the fresh store and a
concrete write-through on the empty store. -/
theorem caching_contract_by_strategy_witness :
    CacheManager.get freshStore "hello" 0 300 = (some cachedResult, freshStore) ∧
    BaseAgentPattern.executeQuery (some freshStore) 0 300 (.error "down") "hello"
      = (cachedResult, some freshStore) ∧
    CacheManager.get [] "q" 0 300 = (none, []) ∧
    BaseAgentPattern.executeQuery (some []) 0 300 (.ok cachedResult) "q"
      = (cachedResult, some (CacheManager.set [] "q" cachedResult 0)) ∧
    StrategyKind.executeQuery .react (some []) 0 300 (.ok cachedResult) allOkOracle "q"
      = BaseAgentPattern.executeQuery (some []) 0 300 (.ok cachedResult) "q" :=
  ⟨by decide,
   ((caching_contract_by_strategy.1 freshStore 0 300 "hello" cachedResult freshStore
      (.error "down") (.error "down")) (by decide)).1,
   rfl,
   caching_contract_by_strategy.2.1 [] 0 300 "q" cachedResult [] rfl,
   caching_contract_by_strategy.2.2.1 .react (by decide) (some []) 0 300 (.ok cachedResult)
     allOkOracle "q"⟩

/-- Inserting is a permutation: the element is only repositioned. -/
theorem insertByScore_perm (x : Interaction × Nat) (l : List (Interaction × Nat)) :
    List.Perm (insertByScore x l) (x :: l) := by
  induction l with
  | nil => exact List.Perm.refl _
  | cons y ys ih =>
    unfold insertByScore
    by_cases h : y.2 ≤ x.2
    · rw [if_pos h]
    · rw [if_neg h]
      exact (ih.cons y).trans (List.Perm.swap x y ys)

/-- Sorting is a permutation of its input. -/
theorem sortByScoreDesc_perm (l : List (Interaction × Nat)) :
    List.Perm (sortByScoreDesc l) l := by
  induction l with
  | nil => exact List.Perm.refl _
  | cons x xs ih => exact (insertByScore_perm x (sortByScoreDesc xs)).trans (ih.cons x)

/-- Inserting into a list sorted by nonincreasing score keeps it sorted. -/
theorem insertByScore_pairwise (x : Interaction × Nat) (l : List (Interaction × Nat))
    (h : l.Pairwise (fun a b => b.2 ≤ a.2)) :
    (insertByScore x l).Pairwise (fun a b => b.2 ≤ a.2) := by
  induction l with
  | nil => simp [insertByScore]
  | cons y ys ih =>
    unfold insertByScore
    by_cases hc : y.2 ≤ x.2
    · rw [if_pos hc]
      refine List.Pairwise.cons ?_ h
      intro z hz
      rcases List.mem_cons.mp hz with rfl | hz'
      · exact hc
      · exact le_trans (List.rel_of_pairwise_cons h hz') hc
    · rw [if_neg hc]
      refine List.Pairwise.cons ?_ (ih (List.Pairwise.of_cons h))
      intro z hz
      rw [(insertByScore_perm x ys).mem_iff] at hz
      rcases List.mem_cons.mp hz with rfl | hz'
      · omega
      · exact List.rel_of_pairwise_cons h hz'

/-- The sort output is sorted by nonincreasing score. -/
theorem sortByScoreDesc_sorted (l : List (Interaction × Nat)) :
    (sortByScoreDesc l).Pairwise (fun a b => b.2 ≤ a.2) := by
  induction l with
  | nil => exact List.Pairwise.nil
  | cons x xs ih => exact insertByScore_pairwise x _ ih

/-- Stability of insertion, inserted score: the inserted element lands in
front of the equal-score elements already present (which entered later
under the `sortByScoreDesc` recursion). -/
theorem insertByScore_filter_eq (x : Interaction × Nat) (l : List (Interaction × Nat))
    (s : Nat) (hx : x.2 = s) :
    (insertByScore x l).filter (fun p => p.2 == s)
      = x :: l.filter (fun p => p.2 == s) := by
  induction l with
  | nil => simp [insertByScore, hx]
  | cons y ys ih =>
    unfold insertByScore
    by_cases hc : y.2 ≤ x.2
    · rw [if_pos hc]
      simp [List.filter_cons, hx]
    · rw [if_neg hc]
      have hy : (y.2 == s) = false := by
        simp only [beq_eq_false_iff_ne, ne_eq]
        omega
      simp [List.filter_cons, hy, ih]

/-- Stability of insertion, other scores: the filtered sublist at any other
score is untouched. -/
theorem insertByScore_filter_ne (x : Interaction × Nat) (l : List (Interaction × Nat))
    (s : Nat) (hx : x.2 ≠ s) :
    (insertByScore x l).filter (fun p => p.2 == s) = l.filter (fun p => p.2 == s) := by
  induction l with
  | nil => simp [insertByScore, hx]
  | cons y ys ih =>
    unfold insertByScore
    by_cases hc : y.2 ≤ x.2
    · rw [if_pos hc]
      simp [List.filter_cons, hx]
    · rw [if_neg hc]
      simp [List.filter_cons, ih]

/-- Stability of the whole sort: for every score value, the subsequence of
elements with that score is exactly the input's, in input (chronological)
order. -/
theorem sortByScoreDesc_filter (l : List (Interaction × Nat)) (s : Nat) :
    (sortByScoreDesc l).filter (fun p => p.2 == s) = l.filter (fun p => p.2 == s) := by
  induction l with
  | nil => rfl
  | cons x xs ih =>
    unfold sortByScoreDesc
    by_cases hx : x.2 = s
    · rw [insertByScore_filter_eq _ _ _ hx, ih, List.filter_cons]
      simp [hx]
    · rw [insertByScore_filter_ne _ _ _ hx, ih, List.filter_cons]
      simp [hx]

/-- Every scored candidate has positive score and carries exactly the
relevance score of its interaction. -/
theorem scoredPositives_mem (q : String) (l : List Interaction) (p : Interaction × Nat)
    (hp : p ∈ scoredPositives q l) : 0 < p.2 ∧ p.2 = relevanceScore q p.1 := by
  unfold scoredPositives at hp
  have h1 := List.of_mem_filter hp
  have h2 := List.mem_of_mem_filter hp
  constructor
  · simpa using h1
  · rcases List.mem_map.mp h2 with ⟨i, _, rfl⟩
    rfl

/-- C6: `get_relevant_context` returns the positively-scored interactions
(score = cardinality of the intersection of the query's lowercase word
set with the union of the interaction's input and response word sets),
stably sorted by descending score (equal scores keep chronological
order), truncated to `max_items`; zero-score interactions never appear. -/
theorem relevance_ranking_behavior (q : String) (l : List Interaction) (n : Nat) :
    MemoryManager.getRelevantContext q n l
      = (sortByScoreDesc (scoredPositives q l)).take n ∧
    (MemoryManager.getRelevantContext q n l).length ≤ n ∧
    (sortByScoreDesc (scoredPositives q l)).Pairwise (fun a b => b.2 ≤ a.2) ∧
    (∀ s, (sortByScoreDesc (scoredPositives q l)).filter (fun p => p.2 == s)
        = (scoredPositives q l).filter (fun p => p.2 == s)) ∧
    (∀ p, p ∈ MemoryManager.getRelevantContext q n l →
        0 < p.2 ∧ p.2 = relevanceScore q p.1) := by
  refine ⟨rfl, ?_, sortByScoreDesc_sorted _, sortByScoreDesc_filter _, ?_⟩
  · exact List.length_take_le n _
  · intro p hp
    have hsort : p ∈ sortByScoreDesc (scoredPositives q l) :=
      List.mem_of_mem_take hp
    have hpos : p ∈ scoredPositives q l :=
      (sortByScoreDesc_perm (scoredPositives q l)).mem_iff.mp hsort
    exact scoredPositives_mem q l p hpos

/-- Interaction overlapping the witness query in three words. -/
def exInteraction3 : Interaction :=
  { timestamp := "t1", user_input := "alpha beta", ai_response := "gamma delta" }

/-- Interaction overlapping the witness query in one word. -/
def exInteraction1 : Interaction :=
  { timestamp := "t2", user_input := "beta x", ai_response := "y" }

/-- Interaction overlapping the witness query in no word. -/
def exInteraction0 : Interaction :=
  { timestamp := "t3", user_input := "delta", ai_response := "epsilon" }

/-- Witness memory log with overlap scores 1, 3, 0 in chronological order. -/
def exInteractions : List Interaction := [exInteraction1, exInteraction3, exInteraction0]

/-- Witness query. -/
def exQuery : String := "alpha beta gamma"

/-- Witness for C6: on interactions scoring 3, 1 and 0 against the query,
`get_relevant_context(query, 2)` returns the score-3 then the score-1
item and drops the score-0 item, and the theorem's membership part
evaluates on the top item. -/
theorem relevance_ranking_behavior_witness :
    MemoryManager.getRelevantContext exQuery 2 exInteractions
      = [(exInteraction3, 3), (exInteraction1, 1)] ∧
    ((exInteraction3, 3) ∈ MemoryManager.getRelevantContext exQuery 2 exInteractions) ∧
    (0 < 3 ∧ 3 = relevanceScore exQuery exInteraction3) :=
  ⟨by decide, by decide,
   (relevance_ranking_behavior exQuery exInteractions 2).2.2.2.2 (exInteraction3, 3)
     (by decide)⟩
